import Mathlib

/-!
Shallow embedding of the Cryostat web console notification channel
(`NotificationChannel.service.tsx`) and the report caching service
(`ReportService`), with theorems checking the natural-language
specification against the code.
-/

namespace Cryostat

/-- Modelled from the spec: the coarse session lifecycle states supplied by the
Session Source (`service.types` is not part of the sources; the spec gives
enum{NO_SESSION, CREATING_SESSION, ACTIVE_SESSION}, the code refers to them as
`NO_USER_SESSION`, `CREATING_USER_SESSION`, `USER_SESSION`). -/
inductive SessionState where
  | NO_USER_SESSION
  | CREATING_USER_SESSION
  | USER_SESSION
deriving DecidableEq, Repr

/-- Modelled from the spec: the authentication methods supplied by the Session
Source (`service.types` is not part of the sources; the spec gives
enum{NONE, BASIC, BEARER}). -/
inductive AuthMethod where
  | NONE
  | BASIC
  | BEARER
deriving DecidableEq, Repr

/-- Notification severities (`AlertVariant` of the UI library, at its
interface). -/
inductive Variant where
  | success
  | info
  | warning
  | danger
deriving DecidableEq, Repr

/-- Modelled from the spec: the externally fixed numeric close-code convention
(`CloseStatus` lives in `api.types`, not among the sources; the spec names the
four classes logged-out, protocol-failure, internal-error, all-others). The
standard WebSocket codes used by the application are 1000 (normal closure /
logout), 1002 (protocol error), 1011 (internal error), with -1 as the
sentinel for an unknown cause. Their exact values are irrelevant to the
theorems below; only their distinctness matters. -/
def CloseStatus.LOGGED_OUT : Int := 1000

/-- Modelled from the spec: protocol/auth rejection close code. -/
def CloseStatus.PROTOCOL_FAILURE : Int := 1002

/-- Modelled from the spec: server internal error close code. -/
def CloseStatus.INTERNAL_ERROR : Int := 1011

/-- Modelled from the spec: sentinel reason code recorded for any other close
cause. -/
def CloseStatus.UNKNOWN : Int := -1

/-- The Readiness State: `_ready` carries `{ ready: false }` or
`{ ready: false, code }` or `{ ready: true }`; the reason code is present only
when it was supplied. -/
structure ReadyState where
  ready : Bool
  code : Option Int := none
deriving DecidableEq, Repr

/-- Outcome of classifying a close event in `closeObserver`: the local
variables `code`, `msg`, `fn` (notification severity) and `sessionState`
assigned by the `switch` on `evt.code`. -/
structure CloseOutcome where
  code : Int
  msg : Option String
  severity : Variant
  sessionState : SessionState
deriving DecidableEq, Repr

/-- The `switch (evt.code)` of `closeObserver`
(`NotificationChannel.service.tsx` lines 132-156): first match wins, default
last. -/
def classifyClose (evtCode : Int) : CloseOutcome :=
  if evtCode = CloseStatus.LOGGED_OUT then
    { code := CloseStatus.LOGGED_OUT
      msg := some "Logout success"
      severity := Variant.info
      sessionState := SessionState.NO_USER_SESSION }
  else if evtCode = CloseStatus.PROTOCOL_FAILURE then
    { code := CloseStatus.PROTOCOL_FAILURE
      msg := some "Authentication failed"
      severity := Variant.danger
      sessionState := SessionState.NO_USER_SESSION }
  else if evtCode = CloseStatus.INTERNAL_ERROR then
    { code := CloseStatus.INTERNAL_ERROR
      msg := some "Internal server error"
      severity := Variant.danger
      sessionState := SessionState.CREATING_USER_SESSION }
  else
    { code := CloseStatus.UNKNOWN
      msg := none
      severity := Variant.info
      sessionState := SessionState.CREATING_USER_SESSION }

/-- The four rows of the close-classification table, indexed in source order. -/
def closeRow : Fin 4 → CloseOutcome
  | 0 => classifyClose CloseStatus.LOGGED_OUT
  | 1 => classifyClose CloseStatus.PROTOCOL_FAILURE
  | 2 => classifyClose CloseStatus.INTERNAL_ERROR
  | 3 => classifyClose CloseStatus.UNKNOWN

/-- The metadata of an inbound message; `msg.meta.category` drives dispatch. -/
structure MessageMeta where
  category : String
deriving DecidableEq, Repr

/-- An inbound `NotificationMessage` at the granularity the channel reads it:
the payload text and the category tag. -/
structure NotificationMessage where
  message : String
  meta : MessageMeta
deriving DecidableEq, Repr

/-- The record passed to `notifications.notify({...})`; optional fields model
properties left undefined at a call site. -/
structure Notification where
  title : String
  message : Option String := none
  category : Option String := none
  variant : Variant
  hidden : Option Bool := none
deriving DecidableEq, Repr

/-- One value of the Category Registration Table: display title, optional
message-to-text transform (`body`), optional severity (`variant`) and
visibility flag (`hidden`). -/
structure MessageEntry where
  title : String
  body : Option (NotificationMessage → String)
  variant : Option Variant
  hidden : Option Bool

/-- The per-category notification raised by the subscriber the constructor
registers for a table entry (`NotificationChannel.service.tsx` lines 43-60):
it fires only when the entry has a `body` and a `variant`, and only for
messages of exactly that category (`messages(key)` filters on
`msg.meta.category === key`). -/
def entryNotification (key : String) (v : MessageEntry) (msg : NotificationMessage) :
    Option Notification :=
  match v.body, v.variant with
  | some body, some variant =>
    if msg.meta.category = key then
      some { title := v.title
             message := some (body msg)
             category := some key
             variant := variant
             hidden := v.hidden }
    else none
  | _, _ => none

/-- All registered-category notifications raised for one inbound message. -/
def registeredNotifications (mk : List (String × MessageEntry)) (msg : NotificationMessage) :
    List Notification :=
  mk.filterMap (fun kv => entryNotification kv.1 kv.2 msg)

/-- The generic notification of the fallback subscriber
(`NotificationChannel.service.tsx` lines 62-73): raw category string as title,
the payload as message, success severity; a category absent from the table is
not a member of the `NotificationCategory` enum, so the enum indexing yields
undefined (`none`). -/
def fallbackNotification (msg : NotificationMessage) : Notification :=
  { title := msg.meta.category
    message := some msg.message
    category := none
    variant := Variant.success
    hidden := none }

/-- All notifications raised for one inbound message: the per-category
subscribers (registered first in the constructor) and then the fallback
subscriber, which fires only when `messageKeys.has(msg.meta.category)` is
false. -/
def dispatch (mk : List (String × MessageEntry)) (msg : NotificationMessage) :
    List Notification :=
  registeredNotifications mk msg ++
    (if msg.meta.category ∈ mk.map Prod.fst then [] else [fallbackNotification msg])

/-- The filter of `messages(category)`
(`NotificationChannel.service.tsx` lines 192-194): a subscriber of that
observable sees an inbound message exactly when
`msg.meta.category === category`. -/
def messagesDelivered (category : String) (msg : NotificationMessage) : Bool :=
  msg.meta.category == category

/-- Modelled from the spec: the Category Registration Table (`messageKeys` in
`api.utils`, not among the sources). The spec describes it as a static,
read-only mapping from category name to display title, message-to-text
transform, severity and visibility flag; only the entry for the
`WsClientActivity` category of the spec's P4 scenario is populated here. -/
def messageKeys : List (String × MessageEntry) :=
  [("WsClientActivity",
    { title := "WebSocket client activity"
      body := some (fun msg => msg.message)
      variant := some Variant.info
      hidden := some true })]

/-- The Upstream Tuple: `[notificationsUrl, token, authMethod, sessionState,
tick]` as combined by `combineLatest` (`NotificationChannel.service.tsx`
lines 87-93). -/
structure UpstreamTuple where
  url : String
  token : String
  authMethod : AuthMethod
  sessionState : SessionState
  tick : Nat
deriving DecidableEq, Repr

/-- The subprotocol derivation (`NotificationChannel.service.tsx` lines
101-111): `undefined` unless the auth method is BEARER or BASIC. -/
def subprotocol (authMethod : AuthMethod) (token : String) : Option String :=
  if authMethod = AuthMethod.BEARER then
    some ("base64url.bearer.authorization.cryostat." ++ token)
  else if authMethod = AuthMethod.BASIC then
    some ("basic.authorization.cryostat." ++ token)
  else none

/-- A physical connection handle (`WebSocketSubject`), identified by a fresh
id and carrying the url and negotiated subprotocol it was created with. -/
structure Conn where
  id : Nat
  url : String
  protocol : Option String
deriving DecidableEq, Repr

/-- The observable side effects of the channel, in program order. -/
inductive Action where
  | complete (id : Nat)
  | create (c : Conn)
  | send (payload : String)
  | readyNext (r : ReadyState)
  | setSessionState (s : SessionState)
  | notify (n : Notification)
  | notifyLost (severity : Variant) (title : String) (msg : Option String)
      (category : String) (autoDismiss : Bool)
deriving DecidableEq, Repr

/-- The serialized events the single-threaded channel reacts to: a
deduplicated upstream tuple, the open / close / message events of the active
connection, and the logout signal. -/
inductive Event where
  | tuple (t : UpstreamTuple)
  | wsOpen
  | wsClose (code : Int)
  | wsMessage (m : NotificationMessage)
  | loggedOut
deriving DecidableEq, Repr

/-- The mutable state of the `NotificationChannel` singleton: the current
`ws` field, the set of physical connections not yet completed or closed, a
fresh-id counter, and the current value of the `_ready` BehaviorSubject. -/
structure ChannelState where
  ws : Option Conn
  live : List Nat
  nextId : Nat
  ready : ReadyState
deriving DecidableEq, Repr

/-- The state at construction time: `ws = null`,
`_ready = new BehaviorSubject({ ready: false })`
(`NotificationChannel.service.tsx` lines 35-37). -/
def initState : ChannelState :=
  { ws := none, live := [], nextId := 0, ready := { ready := false } }

/-- The subscriber body for a deduplicated upstream tuple
(`NotificationChannel.service.tsx` lines 95-176): return early unless
`sessionState === CREATING_USER_SESSION`; derive the subprotocol; complete
the existing `ws` if there is one; create the new socket; send the handshake
frame. -/
def reconcileStep (s : ChannelState) (t : UpstreamTuple) : ChannelState × List Action :=
  if t.sessionState ≠ SessionState.CREATING_USER_SESSION then (s, [])
  else
    let proto := subprotocol t.authMethod t.token
    let completeActs := match s.ws with
      | some c => [Action.complete c.id]
      | none => []
    let live' := match s.ws with
      | some c => s.live.erase c.id
      | none => s.live
    let newConn : Conn := { id := s.nextId, url := t.url, protocol := proto }
    ({ s with ws := some newConn, live := live' ++ [s.nextId], nextId := s.nextId + 1 },
      completeActs ++ [Action.create newConn, Action.send "connect"])

/-- The ordered side effects of `closeObserver`
(`NotificationChannel.service.tsx` lines 126-166): `_ready.next` first, then
the session-state write-back, then `fn.apply` raising the "WebSocket
connection lost" notification (`fn === info` exactly when the classified
severity is info). -/
def closeActions (code : Int) : List Action :=
  let o := classifyClose code
  [Action.readyNext { ready := false, code := some o.code },
   Action.setSessionState o.sessionState,
   Action.notifyLost o.severity "WebSocket connection lost" o.msg
     "WsClientActivity" (o.severity == Variant.info)]

/-- One serialized event handled by the channel, returning the new state and
the side effects in program order. Open, close and message events exist only
for an active connection. -/
def step (s : ChannelState) (e : Event) : ChannelState × List Action :=
  match e with
  | Event.tuple t => reconcileStep s t
  | Event.wsOpen =>
    match s.ws with
    | none => (s, [])
    | some _ =>
      ({ s with ready := { ready := true } },
        [Action.readyNext { ready := true },
         Action.setSessionState SessionState.USER_SESSION])
  | Event.wsClose code =>
    match s.ws with
    | none => (s, [])
    | some c =>
      ({ s with live := s.live.erase c.id
                ready := { ready := false, code := some (classifyClose code).code } },
        closeActions code)
  | Event.wsMessage m =>
    match s.ws with
    | none => (s, [])
    | some _ => (s, (dispatch messageKeys m).map Action.notify)
  | Event.loggedOut =>
    match s.ws with
    | none => (s, [])
    | some c => ({ s with live := s.live.erase c.id }, [Action.complete c.id])

/-- The state after a serialized sequence of events, starting at
construction. -/
def run (es : List Event) : ChannelState :=
  es.foldl (fun s e => (step s e).1) initState

/-- The current value replayed immediately to a new subscriber of
`isReady()`: the `BehaviorSubject` yields its latest value on subscription. -/
def isReadyCurrent (s : ChannelState) : ReadyState :=
  s.ready

/-- Discriminates the connection open / close events. -/
def isOpenOrCloseEvent : Event → Bool
  | Event.wsOpen => true
  | Event.wsClose _ => true
  | _ => false

/-- Discriminates the notification-raising side effects. -/
def isNotifyAction : Action → Bool
  | Action.notify _ => true
  | Action.notifyLost _ _ _ _ _ => true
  | _ => false

/-- Every notification in the action list is preceded by a readiness update
to not-ready carrying a reason code. -/
def notifyPrecededByReady (acts : List Action) : Prop :=
  ∀ j a, acts.get? j = some a → isNotifyAction a = true →
    ∃ i r, i < j ∧ acts.get? i = some (Action.readyNext r) ∧
      r.ready = false ∧ r.code.isSome = true

/-- The `distinctUntilChanged(_.isEqual)` gate, after the first element:
drop a tuple structurally equal to its predecessor. -/
def distinctFrom (prev : UpstreamTuple) : List UpstreamTuple → List UpstreamTuple
  | [] => []
  | t :: ts => if t = prev then distinctFrom prev ts else t :: distinctFrom t ts

/-- The `distinctUntilChanged(_.isEqual)` gate
(`NotificationChannel.service.tsx` line 94) applied to a whole upstream
sequence: the first tuple always passes, later ones only when structurally
different from their predecessor. -/
def distinctList : List UpstreamTuple → List UpstreamTuple
  | [] => []
  | t :: ts => t :: distinctFrom t ts

/-- Number of connection attempts caused by an upstream sequence: the tuples
that survive deduplication and pass the `CREATING_USER_SESSION` guard each
create one socket. -/
def connectionAttempts (ts : List UpstreamTuple) : Nat :=
  ((distinctList ts).filter
    (fun t => t.sessionState == SessionState.CREATING_USER_SESSION)).length

/-- The base64 alphabet of RFC 4648. -/
def base64Alphabet : List Char :=
  "ABCDEFGHIJKLMNOPQRSTUVWXYZabcdefghijklmnopqrstuvwxyz0123456789+/".toList

/-- The base64 digit for a 6-bit value. -/
def base64Char (n : Nat) : Char :=
  base64Alphabet.getD n '='

/-- Base64 encoding of a byte list, three bytes per 4-character group, with
padding. -/
def base64Chunks : List Nat → List Char
  | b1 :: b2 :: b3 :: rest =>
    let n := b1 * 65536 + b2 * 256 + b3
    base64Char (n / 262144) :: base64Char (n / 4096 % 64) ::
      base64Char (n / 64 % 64) :: base64Char (n % 64) :: base64Chunks rest
  | [b1, b2] =>
    let n := b1 * 65536 + b2 * 256
    [base64Char (n / 262144), base64Char (n / 4096 % 64), base64Char (n / 64 % 64), '=']
  | [b1] =>
    let n := b1 * 65536
    [base64Char (n / 262144), base64Char (n / 4096 % 64), '=', '=']
  | [] => []

/-- Model of `Base64.encode` of the external js-base64 library at its
interface: UTF-8 bytes then RFC 4648 base64. All strings the report service
encodes here are ASCII, where the UTF-8 bytes coincide with the code
points. -/
def b64encode (s : String) : String :=
  String.mk (base64Chunks (s.toList.map Char.toNat))

/-- The browser sessionStorage at its interface: an association of string
keys to string values. -/
abbrev Storage := List (String × String)

/-- `sessionStorage.removeItem`. -/
def storageRemoveItem (st : Storage) (k : String) : Storage :=
  st.filter (fun kv => !(kv.1 == k))

/-- A successful `sessionStorage.setItem`: overwrite the key. -/
def storageSetItem (st : Storage) (k v : String) : Storage :=
  storageRemoveItem st k ++ [(k, v)]

/-- `sessionStorage.getItem`. -/
def storageGetItem (st : Storage) (k : String) : Option String :=
  (st.find? (fun kv => kv.1 == k)).map Prod.snd

/-- A recording as the report service reads it: its name, its report URL,
and whether `isActiveRecording` holds of it (`api.utils`, modelled at its
interface as a flag). -/
structure Recording where
  name : String
  reportUrl : String
  isActive : Bool
deriving DecidableEq, Repr

namespace ReportService

/-- The per-recording report cache key (`ReportService.key`). -/
def key (r : Recording) : String :=
  b64encode ("report." ++ r.reportUrl)

/-- The cached-analysis key for a target (`ReportService.analysisKey`). -/
def analysisKey (connectUrl : String) : String :=
  b64encode (connectUrl ++ ".latestReport")

/-- The cached-analysis timestamp key
(`ReportService.analysisKeyTimestamp`). -/
def analysisKeyTimestamp (connectUrl : String) : String :=
  b64encode (connectUrl ++ ".latestReportTimestamp")

/-- `ReportService.delete`: remove the per-recording report cache entry. -/
def deleteRecording (st : Storage) (r : Recording) : Storage :=
  storageRemoveItem st (key r)

end ReportService

/-- The outcome of one `sessionStorage.setItem` call in the browser
environment: success, a quota-exceeded error (recognised by
`isQuotaExceededError`), or any other storage failure. -/
inductive SetItemResult where
  | ok
  | quotaErr (message : String)
  | otherErr
deriving DecidableEq, Repr

/-- The warning the report service raises on a caching failure
(`notifications.warning(title, detail)`). -/
def warningNotif (title detail : String) : Notification :=
  { title := title, message := some detail, variant := Variant.warning }

/-- The result of the `tap` next-handler of `reportJson`: the storage after
the handler, the notifications it raised, and whether an exception escaped
to the caller. -/
structure CacheWriteResult where
  storage : Storage
  notifs : List Notification
  propagated : Bool
deriving DecidableEq, Repr

/-- The `tap({ next })` handler of `ReportService.reportJson` (part_000 lines
63-80): for an active recording, try `setItem(analysisKey(connectUrl),
report)` then `setItem(analysisKeyTimestamp(connectUrl), now)`; on a
quota-exceeded error warn with the error message, otherwise warn that
localStorage is unavailable, and in both catch branches call
`this.delete(recording)`. `r1` and `r2` are the environment's outcomes of
the two `setItem` calls; nothing is rethrown. -/
def cacheReport (st : Storage) (recording : Recording) (connectUrl : String)
    (reportText : String) (now : Nat) (r1 r2 : SetItemResult) : CacheWriteResult :=
  if recording.isActive then
    match r1 with
    | SetItemResult.ok =>
      let st1 := storageSetItem st (ReportService.analysisKey connectUrl) reportText
      match r2 with
      | SetItemResult.ok =>
        { storage := storageSetItem st1 (ReportService.analysisKeyTimestamp connectUrl)
            (toString now)
          notifs := []
          propagated := false }
      | SetItemResult.quotaErr m =>
        { storage := ReportService.deleteRecording st1 recording
          notifs := [warningNotif "Report Caching Failed" m]
          propagated := false }
      | SetItemResult.otherErr =>
        { storage := ReportService.deleteRecording st1 recording
          notifs := [warningNotif "Report Caching Failed" "localStorage is not available"]
          propagated := false }
    | SetItemResult.quotaErr m =>
      { storage := ReportService.deleteRecording st recording
        notifs := [warningNotif "Report Caching Failed" m]
        propagated := false }
    | SetItemResult.otherErr =>
      { storage := ReportService.deleteRecording st recording
        notifs := [warningNotif "Report Caching Failed" "localStorage is not available"]
        propagated := false }
  else
    { storage := st, notifs := [], propagated := false }

/-- Index of the table row selected for a close code, in the switch's
first-match order. -/
def rowIndex (code : Int) : Fin 4 :=
  if code = CloseStatus.LOGGED_OUT then 0
  else if code = CloseStatus.PROTOCOL_FAILURE then 1
  else if code = CloseStatus.INTERNAL_ERROR then 2
  else 3

/-- A registration-table entry with a body transform and a title but no
severity, for checking the dispatch guard. -/
def c5Entry : MessageEntry :=
  { title := "Garbage collection", body := some (fun m => m.message),
    variant := none, hidden := none }

/-- A one-entry table holding `c5Entry`. -/
def c5Table : List (String × MessageEntry) :=
  [("GarbageCollection", c5Entry)]

/-- An inbound message of the category registered in `c5Table`. -/
def c5Msg : NotificationMessage :=
  { message := "gc", meta := { category := "GarbageCollection" } }

/-- An active recording whose report is being cached. -/
def c9Rec : Recording :=
  { name := "foo", reportUrl := "r1", isActive := true }

/-- A session storage holding a previously cached analysis report for the
target `t1`. -/
def c9Store : Storage :=
  [(ReportService.analysisKey "t1", "oldReport")]

/-- The result of the caching handler when the first `setItem` (the write of
the fresh analysis report) fails with a quota error. -/
def c9Result : CacheWriteResult :=
  cacheReport c9Store c9Rec "t1" "newReport" 7
    (SetItemResult.quotaErr "QuotaExceededError") SetItemResult.ok

end Cryostat

namespace Cryostat

section Lemmas

lemma classifyClose_rowIndex (code : Int) :
    classifyClose code = closeRow (rowIndex code) := by
  by_cases h1 : code = CloseStatus.LOGGED_OUT
  · subst h1; decide
  · by_cases h2 : code = CloseStatus.PROTOCOL_FAILURE
    · subst h2; decide
    · by_cases h3 : code = CloseStatus.INTERNAL_ERROR
      · subst h3; decide
      · have h4 : rowIndex code = 3 := by simp [rowIndex, h1, h2, h3]
        have h5 : closeRow 3 =
            { code := CloseStatus.UNKNOWN, msg := none, severity := Variant.info,
              sessionState := SessionState.CREATING_USER_SESSION } := by decide
        rw [h4, h5]
        simp [classifyClose, h1, h2, h3]

lemma closeRow_injective : ∀ i j : Fin 4, closeRow i = closeRow j → i = j := by
  decide

end Lemmas

/-- C1: every close event of the active connection is classified into exactly
one of the four table rows, and the Readiness reason code, session-state
write-back, notification severity and detail message of each row are those of
the table in §4.1 of the spec; the close handler emits the readiness
update, the session-state write-back and the "WebSocket connection lost"
notification accordingly. -/
theorem C1_close_classification (code : Int) :
    (∃! i : Fin 4, classifyClose code = closeRow i) ∧
    (code = CloseStatus.LOGGED_OUT →
      classifyClose code =
        { code := CloseStatus.LOGGED_OUT, msg := some "Logout success",
          severity := Variant.info, sessionState := SessionState.NO_USER_SESSION }) ∧
    (code = CloseStatus.PROTOCOL_FAILURE →
      classifyClose code =
        { code := CloseStatus.PROTOCOL_FAILURE, msg := some "Authentication failed",
          severity := Variant.danger, sessionState := SessionState.NO_USER_SESSION }) ∧
    (code = CloseStatus.INTERNAL_ERROR →
      classifyClose code =
        { code := CloseStatus.INTERNAL_ERROR, msg := some "Internal server error",
          severity := Variant.danger, sessionState := SessionState.CREATING_USER_SESSION }) ∧
    (code ≠ CloseStatus.LOGGED_OUT → code ≠ CloseStatus.PROTOCOL_FAILURE →
      code ≠ CloseStatus.INTERNAL_ERROR →
      classifyClose code =
        { code := CloseStatus.UNKNOWN, msg := none,
          severity := Variant.info, sessionState := SessionState.CREATING_USER_SESSION }) ∧
    (Action.readyNext { ready := false, code := some (classifyClose code).code } ∈
        closeActions code ∧
      Action.setSessionState (classifyClose code).sessionState ∈ closeActions code ∧
      Action.notifyLost (classifyClose code).severity "WebSocket connection lost"
        (classifyClose code).msg "WsClientActivity"
        ((classifyClose code).severity == Variant.info) ∈ closeActions code) := by
  refine ⟨⟨rowIndex code, classifyClose_rowIndex code, ?_⟩, ?_, ?_, ?_, ?_, ?_, ?_, ?_⟩
  · intro j hj
    exact closeRow_injective j (rowIndex code)
      (hj.symm.trans (classifyClose_rowIndex code))
  · intro h; subst h; rfl
  · intro h; subst h; rfl
  · intro h; subst h; rfl
  · intro h1 h2 h3; simp [classifyClose, h1, h2, h3]
  · simp [closeActions]
  · simp [closeActions]
  · simp [closeActions]

/-- Witness for C1 at the four concrete close codes 1000, 1002, 1011 and
1006. -/
theorem C1_close_classification_witness :
    classifyClose 1000 =
      { code := CloseStatus.LOGGED_OUT, msg := some "Logout success",
        severity := Variant.info, sessionState := SessionState.NO_USER_SESSION } ∧
    classifyClose 1002 =
      { code := CloseStatus.PROTOCOL_FAILURE, msg := some "Authentication failed",
        severity := Variant.danger, sessionState := SessionState.NO_USER_SESSION } ∧
    classifyClose 1011 =
      { code := CloseStatus.INTERNAL_ERROR, msg := some "Internal server error",
        severity := Variant.danger, sessionState := SessionState.CREATING_USER_SESSION } ∧
    classifyClose 1006 =
      { code := CloseStatus.UNKNOWN, msg := none,
        severity := Variant.info, sessionState := SessionState.CREATING_USER_SESSION } :=
  ⟨(C1_close_classification 1000).2.1 rfl,
   (C1_close_classification 1002).2.2.1 rfl,
   (C1_close_classification 1011).2.2.2.1 rfl,
   (C1_close_classification 1006).2.2.2.2.1 (by decide) (by decide) (by decide)⟩

section ConnectionLemmas

/-- The physical connections alive in a state are at most the one held in
`ws`. -/
def connInv (s : ChannelState) : Prop :=
  s.live = [] ∨ ∃ c, s.ws = some c ∧ s.live = [c.id]

lemma connInv_init : connInv initState :=
  Or.inl rfl

lemma connInv_step (s : ChannelState) (e : Event) (h : connInv s) :
    connInv (step s e).1 := by
  cases e with
  | tuple t =>
    by_cases hss : t.sessionState = SessionState.CREATING_USER_SESSION
    · cases hw : s.ws with
      | none =>
        rcases h with h | ⟨c, hc, _⟩
        · exact Or.inr ⟨{ id := s.nextId, url := t.url,
                          protocol := subprotocol t.authMethod t.token },
            by simp [step, reconcileStep, hss, hw, h]⟩
        · simp [hw] at hc
      | some c =>
        refine Or.inr ⟨{ id := s.nextId, url := t.url,
                         protocol := subprotocol t.authMethod t.token }, ?_⟩
        rcases h with h | ⟨d, hd, hlive⟩
        · simp [step, reconcileStep, hss, hw, h]
        · rw [hw] at hd
          cases hd
          simp [step, reconcileStep, hss, hw, hlive]
    · have hnoop : step s (Event.tuple t) = (s, []) := by
        simp [step, reconcileStep, hss]
      rw [hnoop]
      exact h
  | wsOpen =>
    cases hw : s.ws with
    | none => simpa [step, hw] using h
    | some c =>
      rcases h with h | ⟨d, hd, hlive⟩
      · exact Or.inl (by simpa [step, hw] using h)
      · exact Or.inr ⟨d, by simpa [step, hw] using hd, by simpa [step, hw] using hlive⟩
  | wsClose code =>
    cases hw : s.ws with
    | none => simpa [step, hw] using h
    | some c =>
      left
      rcases h with h | ⟨d, hd, hlive⟩
      · simp [step, hw, h]
      · rw [hw] at hd
        cases hd
        simp [step, hw, hlive]
  | wsMessage m =>
    cases hw : s.ws with
    | none => simpa [step, hw] using h
    | some c => simpa [step, hw] using h
  | loggedOut =>
    cases hw : s.ws with
    | none => simpa [step, hw] using h
    | some c =>
      left
      rcases h with h | ⟨d, hd, hlive⟩
      · simp [step, hw, h]
      · rw [hw] at hd
        cases hd
        simp [step, hw, hlive]

lemma connInv_foldl (es : List Event) :
    ∀ s : ChannelState, connInv s →
      connInv (es.foldl (fun s e => (step s e).1) s) := by
  induction es with
  | nil => intro s h; exact h
  | cons e es ih =>
    intro s h
    exact ih _ (connInv_step s e h)

lemma connInv_length_le (s : ChannelState) (h : connInv s) : s.live.length ≤ 1 := by
  rcases h with h | ⟨c, _, h⟩ <;> simp [h]

end ConnectionLemmas

/-- C2: at most one physical connection exists at any instant over any
serialized event sequence, and whenever a reconciled tuple opens a new
connection while one exists, the existing connection is completed before the
new one is created (the action list has `complete` strictly before
`create`). -/
theorem C2_single_connection :
    (∀ es : List Event, (run es).live.length ≤ 1) ∧
    (∀ (s : ChannelState) (t : UpstreamTuple) (c : Conn),
      s.ws = some c → t.sessionState = SessionState.CREATING_USER_SESSION →
      (step s (Event.tuple t)).2 =
        [Action.complete c.id,
         Action.create { id := s.nextId, url := t.url,
                         protocol := subprotocol t.authMethod t.token },
         Action.send "connect"]) := by
  constructor
  · intro es
    exact connInv_length_le _ (connInv_foldl es initState connInv_init)
  · intro s t c hws hss
    simp [step, reconcileStep, hss, hws]

/-- Witness for C2 at a concrete state holding a connection and a concrete
creating-session tuple. -/
theorem C2_single_connection_witness :
    (run []).live.length ≤ 1 ∧
    (step { ws := some { id := 0, url := "wss://a", protocol := none },
            live := [0], nextId := 1, ready := { ready := false } }
        (Event.tuple { url := "wss://b", token := "tok",
                       authMethod := AuthMethod.BEARER,
                       sessionState := SessionState.CREATING_USER_SESSION,
                       tick := 3 })).2 =
      [Action.complete 0,
       Action.create { id := 1, url := "wss://b",
                       protocol := subprotocol AuthMethod.BEARER "tok" },
       Action.send "connect"] :=
  ⟨C2_single_connection.1 [],
   C2_single_connection.2 _ _ _ rfl rfl⟩

/-- C3: a reconciled tuple whose session state is not CREATING_USER_SESSION
is a no-op (state untouched, no side effects at all), and a connection is
created only for tuples in CREATING_USER_SESSION. -/
theorem C3_reconcile_noop :
    (∀ (s : ChannelState) (t : UpstreamTuple),
      t.sessionState ≠ SessionState.CREATING_USER_SESSION →
      step s (Event.tuple t) = (s, [])) ∧
    (∀ (s : ChannelState) (t : UpstreamTuple) (c : Conn),
      Action.create c ∈ (step s (Event.tuple t)).2 →
      t.sessionState = SessionState.CREATING_USER_SESSION) := by
  constructor
  · intro s t h
    simp [step, reconcileStep, h]
  · intro s t c hmem
    by_cases h : t.sessionState = SessionState.CREATING_USER_SESSION
    · exact h
    · simp [step, reconcileStep, h] at hmem

/-- Witness for C3: a USER_SESSION tuple is a no-op, and a concrete created
connection forces CREATING_USER_SESSION. -/
theorem C3_reconcile_noop_witness :
    step initState
        (Event.tuple { url := "wss://a", token := "tok",
                       authMethod := AuthMethod.NONE,
                       sessionState := SessionState.USER_SESSION,
                       tick := 0 }) = (initState, []) ∧
    SessionState.CREATING_USER_SESSION = SessionState.CREATING_USER_SESSION :=
  ⟨C3_reconcile_noop.1 _ _ (by decide),
   C3_reconcile_noop.2 initState
     { url := "wss://a", token := "", authMethod := AuthMethod.NONE,
       sessionState := SessionState.CREATING_USER_SESSION, tick := 0 }
     { id := 0, url := "wss://a", protocol := none }
     (by decide)⟩

/-- C4: the subprotocol of a connection opened for a creating-session tuple
is the bearer string for BEARER, the basic string for BASIC, and unset
otherwise; and a successful open sets the Readiness State to ready and
writes the session state back as USER_SESSION. -/
theorem C4_subprotocol_open :
    (∀ (s : ChannelState) (t : UpstreamTuple),
      t.sessionState = SessionState.CREATING_USER_SESSION →
      (step s (Event.tuple t)).1.ws =
        some { id := s.nextId, url := t.url,
               protocol := subprotocol t.authMethod t.token }) ∧
    (∀ token, subprotocol AuthMethod.BEARER token =
      some ("base64url.bearer.authorization.cryostat." ++ token)) ∧
    (∀ token, subprotocol AuthMethod.BASIC token =
      some ("basic.authorization.cryostat." ++ token)) ∧
    (∀ m token, m ≠ AuthMethod.BEARER → m ≠ AuthMethod.BASIC →
      subprotocol m token = none) ∧
    (∀ s : ChannelState, s.ws ≠ none →
      (step s Event.wsOpen).1.ready = { ready := true, code := none } ∧
      (step s Event.wsOpen).2 =
        [Action.readyNext { ready := true },
         Action.setSessionState SessionState.USER_SESSION]) := by
  refine ⟨?_, fun token => rfl, fun token => rfl, ?_, ?_⟩
  · intro s t h
    simp [step, reconcileStep, h]
  · intro m token h1 h2
    simp [subprotocol, h1, h2]
  · intro s h
    cases hw : s.ws with
    | none => exact absurd hw h
    | some c => exact ⟨by simp [step, hw], by simp [step, hw]⟩

/-- Witness for C4 at a concrete creating-session tuple and a concrete state
with an active connection. -/
theorem C4_subprotocol_open_witness :
    (step initState
        (Event.tuple { url := "wss://x", token := "abc",
                       authMethod := AuthMethod.BEARER,
                       sessionState := SessionState.CREATING_USER_SESSION,
                       tick := 0 })).1.ws =
      some { id := 0, url := "wss://x",
             protocol := subprotocol AuthMethod.BEARER "abc" } ∧
    subprotocol AuthMethod.NONE "abc" = none ∧
    ((step { ws := some { id := 0, url := "wss://x",
                          protocol := some "base64url.bearer.authorization.cryostat.abc" },
             live := [0], nextId := 1, ready := { ready := false } }
        Event.wsOpen).1.ready = { ready := true, code := none } ∧
     (step { ws := some { id := 0, url := "wss://x",
                          protocol := some "base64url.bearer.authorization.cryostat.abc" },
             live := [0], nextId := 1, ready := { ready := false } }
        Event.wsOpen).2 =
       [Action.readyNext { ready := true },
        Action.setSessionState SessionState.USER_SESSION]) :=
  ⟨C4_subprotocol_open.1 _ _ rfl,
   C4_subprotocol_open.2.2.2.1 AuthMethod.NONE "abc" (by decide) (by decide),
   C4_subprotocol_open.2.2.2.2 _ (by simp)⟩

section DispatchLemmas

lemma entryNotification_ne (key : String) (v : MessageEntry) (msg : NotificationMessage)
    (h : msg.meta.category ≠ key) : entryNotification key v msg = none := by
  unfold entryNotification
  cases v.body <;> cases v.variant <;> simp [h]

lemma registered_nil_of_not_mem (mk : List (String × MessageEntry))
    (msg : NotificationMessage) (h : msg.meta.category ∉ mk.map Prod.fst) :
    registeredNotifications mk msg = [] := by
  induction mk with
  | nil => rfl
  | cons kv rest ih =>
    simp only [List.map_cons, List.mem_cons, not_or] at h
    simp only [registeredNotifications, List.filterMap_cons,
      entryNotification_ne kv.1 kv.2 msg h.1]
    exact ih h.2

lemma registered_single (mk : List (String × MessageEntry)) (msg : NotificationMessage)
    (k : String) (v : MessageEntry) (b : NotificationMessage → String) (vr : Variant)
    (hnd : (mk.map Prod.fst).Nodup) (hmem : (k, v) ∈ mk)
    (hb : v.body = some b) (hv : v.variant = some vr)
    (hcat : msg.meta.category = k) :
    registeredNotifications mk msg =
      [{ title := v.title, message := some (b msg), category := some k,
         variant := vr, hidden := v.hidden }] := by
  induction mk with
  | nil => cases hmem
  | cons kv rest ih =>
    simp only [List.map_cons, List.nodup_cons] at hnd
    rcases List.mem_cons.mp hmem with heq | hmem2
    · subst heq
      have hrest : msg.meta.category ∉ rest.map Prod.fst := by
        rw [hcat]; exact hnd.1
      simp only [registeredNotifications, List.filterMap_cons]
      rw [show entryNotification k v msg =
        some { title := v.title, message := some (b msg), category := some k,
               variant := vr, hidden := v.hidden } by
          unfold entryNotification; rw [hb, hv]; simp [hcat]]
      rw [show rest.filterMap (fun kv => entryNotification kv.1 kv.2 msg) = [] from
        registered_nil_of_not_mem rest msg hrest]
    · have hk : kv.1 ≠ msg.meta.category := by
        intro hcontra
        apply hnd.1
        rw [hcontra, hcat]
        exact List.mem_map.mpr ⟨(k, v), hmem2, rfl⟩
      simp only [registeredNotifications, List.filterMap_cons,
        entryNotification_ne kv.1 kv.2 msg (Ne.symm hk)]
      exact ih hnd.2 hmem2

end DispatchLemmas

/-- C5 counterexample: a table entry with a non-empty body transform and a
non-empty title but no severity raises no notification at all for a matching
message (the constructor's guard checks `value.body && value.variant`, not
the title), so the claim's "exactly one notification for that entry" fails. -/
theorem C5_fanout_counterexample :
    c5Entry.body.isSome = true ∧
    c5Entry.title = "Garbage collection" ∧
    ("GarbageCollection", c5Entry) ∈ c5Table ∧
    c5Msg.meta.category = "GarbageCollection" ∧
    dispatch c5Table c5Msg = [] :=
  ⟨rfl, rfl, List.mem_singleton.mpr rfl, rfl, rfl⟩

/-- C5 amended: for every inbound message whose category equals the key of a
table entry having a non-empty body transform and a configured severity
(variant) — the guard the code actually checks — exactly one notification is
raised, with the transform's output as message and the entry's title,
severity and visibility; no fallback fires, and the message is visible to
every subscriber of `messages` at that category. -/
theorem C5_fanout_amended (mk : List (String × MessageEntry)) (msg : NotificationMessage)
    (k : String) (v : MessageEntry) (b : NotificationMessage → String) (vr : Variant)
    (hnd : (mk.map Prod.fst).Nodup) (hmem : (k, v) ∈ mk)
    (hb : v.body = some b) (hv : v.variant = some vr)
    (hcat : msg.meta.category = k) :
    dispatch mk msg =
      [{ title := v.title, message := some (b msg), category := some k,
         variant := vr, hidden := v.hidden }] ∧
    messagesDelivered k msg = true := by
  constructor
  · have hkey : msg.meta.category ∈ mk.map Prod.fst := by
      rw [hcat]; exact List.mem_map.mpr ⟨(k, v), hmem, rfl⟩
    rw [dispatch, if_pos hkey, List.append_nil]
    exact registered_single mk msg k v b vr hnd hmem hb hv hcat
  · simp [messagesDelivered, hcat]

/-- Witness for the amended C5 at the registered `WsClientActivity` entry of
the modelled table. -/
theorem C5_fanout_amended_witness :
    dispatch messageKeys { message := "client connected", meta := { category := "WsClientActivity" } } =
      [{ title := "WebSocket client activity", message := some "client connected",
         category := some "WsClientActivity", variant := Variant.info,
         hidden := some true }] ∧
    messagesDelivered "WsClientActivity"
      { message := "client connected", meta := { category := "WsClientActivity" } } = true :=
  C5_fanout_amended messageKeys _ "WsClientActivity"
    { title := "WebSocket client activity", body := some (fun msg => msg.message),
      variant := some Variant.info, hidden := some true }
    (fun msg => msg.message) Variant.info
    (by simp [messageKeys]) (List.mem_singleton.mpr rfl) rfl rfl rfl

/-- C6: an inbound message whose category is not a key of the table raises
exactly one fallback notification, with the raw category string as title and
success severity, and is still delivered to the subscribers of `messages` at
that category. -/
theorem C6_fallback (mk : List (String × MessageEntry)) (msg : NotificationMessage)
    (h : msg.meta.category ∉ mk.map Prod.fst) :
    dispatch mk msg = [fallbackNotification msg] ∧
    (fallbackNotification msg).title = msg.meta.category ∧
    (fallbackNotification msg).variant = Variant.success ∧
    messagesDelivered msg.meta.category msg = true := by
  refine ⟨?_, rfl, rfl, by simp [messagesDelivered]⟩
  rw [dispatch, if_neg h, registered_nil_of_not_mem mk msg h, List.nil_append]

/-- Witness for C6 at a concrete unregistered category. -/
theorem C6_fallback_witness :
    dispatch messageKeys { message := "m", meta := { category := "Mystery" } } =
      [fallbackNotification { message := "m", meta := { category := "Mystery" } }] ∧
    (fallbackNotification { message := "m", meta := { category := "Mystery" } }).title =
      "Mystery" ∧
    (fallbackNotification { message := "m", meta := { category := "Mystery" } }).variant =
      Variant.success ∧
    messagesDelivered "Mystery" { message := "m", meta := { category := "Mystery" } } = true :=
  C6_fallback messageKeys _ (by simp [messageKeys])

section DedupLemmas

lemma distinctFrom_append_double (xs : List UpstreamTuple) (t : UpstreamTuple) :
    ∀ prev : UpstreamTuple,
      distinctFrom prev (xs ++ [t, t]) = distinctFrom prev (xs ++ [t]) := by
  induction xs with
  | nil =>
    intro prev
    by_cases h : t = prev <;> simp [distinctFrom, h]
  | cons x xs ih =>
    intro prev
    by_cases h : x = prev <;> simp [distinctFrom, h, ih]

end DedupLemmas

/-- C7: a tuple structurally equal to its immediate predecessor is suppressed
by the deduplication gate — appending a duplicate changes nothing downstream
— and submitting the same tuple twice in a row from scratch causes at most
one connection attempt. -/
theorem C7_dedup :
    (∀ (xs : List UpstreamTuple) (t : UpstreamTuple),
      distinctList (xs ++ [t, t]) = distinctList (xs ++ [t])) ∧
    (∀ (xs : List UpstreamTuple) (t : UpstreamTuple),
      connectionAttempts (xs ++ [t, t]) = connectionAttempts (xs ++ [t])) ∧
    (∀ t : UpstreamTuple, connectionAttempts [t, t] ≤ 1) := by
  have h1 : ∀ (xs : List UpstreamTuple) (t : UpstreamTuple),
      distinctList (xs ++ [t, t]) = distinctList (xs ++ [t]) := by
    intro xs t
    cases xs with
    | nil => simp [distinctList, distinctFrom]
    | cons x xs => simp [distinctList, distinctFrom_append_double]
  refine ⟨h1, fun xs t => by simp [connectionAttempts, h1 xs t], fun t => ?_⟩
  simp only [connectionAttempts, distinctList, distinctFrom, if_pos rfl]
  cases h : t.sessionState == SessionState.CREATING_USER_SESSION <;>
    simp [List.filter, h]

section TemporalLemmas

lemma closeActions_get_zero (code : Int) :
    (closeActions code).get? 0 =
      some (Action.readyNext { ready := false, code := some (classifyClose code).code }) :=
  rfl

end TemporalLemmas

/-- C8: the Readiness State is set to ready only by the open event of an
active connection; a close event of an active connection sets it to
not-ready carrying the classified reason code, and in the close handler the
readiness update strictly precedes every notification side effect. -/
theorem C8_readiness_temporal :
    (∀ (s : ChannelState) (e : Event) (r : ReadyState),
      Action.readyNext r ∈ (step s e).2 → r.ready = true → e = Event.wsOpen) ∧
    (∀ (s : ChannelState) (c : Conn) (code : Int),
      s.ws = some c →
      (step s (Event.wsClose code)).1.ready =
        { ready := false, code := some (classifyClose code).code } ∧
      notifyPrecededByReady (step s (Event.wsClose code)).2) := by
  constructor
  · intro s e r hmem htrue
    cases e with
    | tuple t =>
      by_cases hss : t.sessionState = SessionState.CREATING_USER_SESSION
      · cases hw : s.ws <;> simp [step, reconcileStep, hss, hw] at hmem
      · simp [step, reconcileStep, hss] at hmem
    | wsOpen => rfl
    | wsClose code =>
      cases hw : s.ws with
      | none => simp [step, hw] at hmem
      | some c =>
        simp [step, hw, closeActions] at hmem
        subst hmem
        simp at htrue
    | wsMessage m =>
      cases hw : s.ws with
      | none => simp [step, hw] at hmem
      | some c =>
        simp [step, hw, List.mem_map] at hmem
    | loggedOut =>
      cases hw : s.ws <;> simp [step, hw] at hmem
  · intro s c code hws
    constructor
    · simp [step, hws]
    · have hacts : (step s (Event.wsClose code)).2 = closeActions code := by
        simp [step, hws]
      rw [hacts]
      intro j a hj hn
      match j with
      | 0 =>
        rw [closeActions_get_zero] at hj
        cases hj
        simp [isNotifyAction] at hn
      | 1 =>
        have : a = Action.setSessionState (classifyClose code).sessionState := by
          simpa [closeActions] using hj.symm
        rw [this] at hn
        simp [isNotifyAction] at hn
      | 2 =>
        exact ⟨0, { ready := false, code := some (classifyClose code).code },
          Nat.zero_lt_succ 1, closeActions_get_zero code, rfl, rfl⟩
      | (n + 3) =>
        simp [closeActions] at hj

/-- Witness for C8 at a concrete state with an active connection, an open
event and a close event with code 1011. -/
theorem C8_readiness_temporal_witness :
    Event.wsOpen = Event.wsOpen ∧
    ((step { ws := some { id := 0, url := "wss://a", protocol := none },
             live := [0], nextId := 1, ready := { ready := true } }
        (Event.wsClose 1011)).1.ready =
      { ready := false, code := some (classifyClose 1011).code } ∧
     notifyPrecededByReady
       (step { ws := some { id := 0, url := "wss://a", protocol := none },
               live := [0], nextId := 1, ready := { ready := true } }
         (Event.wsClose 1011)).2) :=
  ⟨C8_readiness_temporal.1
      { ws := some { id := 0, url := "wss://a", protocol := none },
        live := [0], nextId := 1, ready := { ready := false } }
      Event.wsOpen { ready := true } (by decide) rfl,
   C8_readiness_temporal.2 _ { id := 0, url := "wss://a", protocol := none } 1011 rfl⟩

section ReadyLemmas

lemma step_ready_of_not_openClose (s : ChannelState) (e : Event)
    (h : isOpenOrCloseEvent e = false) : (step s e).1.ready = s.ready := by
  cases e with
  | tuple t =>
    by_cases hss : t.sessionState = SessionState.CREATING_USER_SESSION <;>
      simp [step, reconcileStep, hss]
  | wsOpen => simp [isOpenOrCloseEvent] at h
  | wsClose code => simp [isOpenOrCloseEvent] at h
  | wsMessage m => cases hw : s.ws <;> simp [step, hw]
  | loggedOut => cases hw : s.ws <;> simp [step, hw]

lemma foldl_ready_of_not_openClose (es : List Event) :
    ∀ s : ChannelState, (∀ e ∈ es, isOpenOrCloseEvent e = false) →
      (es.foldl (fun s e => (step s e).1) s).ready = s.ready := by
  induction es with
  | nil => intro s _; rfl
  | cons e es ih =>
    intro s h
    rw [List.foldl_cons, ih _ (fun x hx => h x (List.mem_cons_of_mem e hx)),
      step_ready_of_not_openClose s e (h e (List.mem_cons_self e es))]

end ReadyLemmas

/-- C10: at construction the Readiness State held by the `_ready`
BehaviorSubject — and hence the value immediately replayed to any new
subscriber of `isReady()` — is not-ready with no reason code, and it stays
that way over any event sequence containing no open or close event. -/
theorem C10_initial_readiness :
    initState.ready = { ready := false, code := none } ∧
    (∀ es : List Event, (∀ e ∈ es, isOpenOrCloseEvent e = false) →
      isReadyCurrent (run es) = { ready := false, code := none }) := by
  refine ⟨rfl, fun es h => ?_⟩
  rw [isReadyCurrent, run, foldl_ready_of_not_openClose es initState h]
  rfl

/-- Witness for C10 over a concrete sequence of tuple, message and logout
events. -/
theorem C10_initial_readiness_witness :
    isReadyCurrent (run
      [Event.tuple { url := "wss://a", token := "t", authMethod := AuthMethod.NONE,
                     sessionState := SessionState.USER_SESSION, tick := 0 },
       Event.loggedOut]) = { ready := false, code := none } :=
  C10_initial_readiness.2 _ (by decide)

/-- C9 counterexample: when the first `setItem` of a freshly fetched active
recording report fails with a quota error, the handler removes the
per-recording key `report.<reportUrl>` — not the analysis entry the failed
write targeted, which is still present afterwards; so the claim's
"the cache entry affected by the failed write is invalidated" fails. -/
theorem C9_cache_counterexample :
    c9Result.propagated = false ∧
    c9Result.notifs = [warningNotif "Report Caching Failed" "QuotaExceededError"] ∧
    storageGetItem c9Result.storage (ReportService.analysisKey "t1") = some "oldReport" := by
  decide

/-- C9 amended: a storage failure while caching a fresh active-recording
report is caught locally, raises exactly one "Report Caching Failed" warning
(with the error message on quota errors, a storage-unavailable hint
otherwise), removes the recording's own report cache entry (not the analysis
entry the failed write targeted), and never propagates to the caller of
`reportJson`. -/
theorem C9_cache_error_amended (st : Storage) (rec : Recording) (u text : String)
    (now : Nat) (hA : rec.isActive = true) :
    (∀ (m : String) (r2 : SetItemResult),
      cacheReport st rec u text now (SetItemResult.quotaErr m) r2 =
        { storage := ReportService.deleteRecording st rec
          notifs := [warningNotif "Report Caching Failed" m]
          propagated := false }) ∧
    (∀ r2 : SetItemResult,
      cacheReport st rec u text now SetItemResult.otherErr r2 =
        { storage := ReportService.deleteRecording st rec
          notifs := [warningNotif "Report Caching Failed" "localStorage is not available"]
          propagated := false }) ∧
    (∀ m : String,
      cacheReport st rec u text now SetItemResult.ok (SetItemResult.quotaErr m) =
        { storage := ReportService.deleteRecording
            (storageSetItem st (ReportService.analysisKey u) text) rec
          notifs := [warningNotif "Report Caching Failed" m]
          propagated := false }) ∧
    (cacheReport st rec u text now SetItemResult.ok SetItemResult.otherErr =
      { storage := ReportService.deleteRecording
          (storageSetItem st (ReportService.analysisKey u) text) rec
        notifs := [warningNotif "Report Caching Failed" "localStorage is not available"]
        propagated := false }) := by
  refine ⟨fun m r2 => ?_, fun r2 => ?_, fun m => ?_, ?_⟩ <;> simp [cacheReport, hA]

/-- Witness for the amended C9 at a concrete active recording and a quota
failure of the first write. -/
theorem C9_cache_error_amended_witness :
    cacheReport [] { name := "n", reportUrl := "r1", isActive := true } "t1" "rep" 5
        (SetItemResult.quotaErr "full") SetItemResult.ok =
      { storage := ReportService.deleteRecording []
          { name := "n", reportUrl := "r1", isActive := true }
        notifs := [warningNotif "Report Caching Failed" "full"]
        propagated := false } :=
  (C9_cache_error_amended [] { name := "n", reportUrl := "r1", isActive := true }
    "t1" "rep" 5 rfl).1 "full" SetItemResult.ok

end Cryostat
